import Mathlib

/-!
Shallow embedding of the RIZZK risk-to-reward calculator core
(`rizzk_core.py`) over exact rational arithmetic, together with proofs of
the specified properties of `calculate_risk_reward`,
`calculate_percentage_moves` and `calculate_risk_reward_ratio`.

Python `float` values are modelled as `ℚ` (the properties of the spec are stated
in exact arithmetic); `raise ValueError` is modelled as `Except.error`
carrying the error kind the specification assigns to each raise site
(`InvalidInput` for every precondition check, `DegenerateSetup` for the
position-size sanity ceiling).  Python `int()` truncates toward zero and is
modelled by `pyint`.
-/

namespace Rizzk

/-- The `position_type` literal: `"Long"` or `"Short"`. -/
inductive PositionType where
  | long
  | short
deriving DecidableEq, Repr

/-- The `risk_mode` literal: `"% of Account"` or `"Fixed $ Amount"`. -/
inductive RiskMode where
  | percentOfAccount
  | fixedAmount
deriving DecidableEq, Repr

/-- Error taxonomy of the spec: each `raise ValueError` site in
`calculate_risk_reward` is a precondition check (`invalidInput`) except the
final position-size ceiling check (`degenerateSetup`).  Message strings are
dropped; only the kind is kept. -/
inductive CalcError where
  | invalidInput
  | degenerateSetup
deriving DecidableEq, Repr

/-- The 6-tuple returned by `calculate_risk_reward`, with named fields in
the order of the Python return statement. -/
structure RiskResult where
  position_size : ℚ
  position_size_rounded : ℤ
  risk_amount : ℚ
  profit_1_1 : ℚ
  profit_2_1 : ℚ
  stop_loss_amount : ℚ
deriving DecidableEq, Repr

/-- Python `int()` applied to a rational: truncation toward zero. -/
def pyint (q : ℚ) : ℤ :=
  if 0 ≤ q then ⌊q⌋ else ⌈q⌉

/-- Embedding of `calculate_risk_reward` from `rizzk_core.py`: the guard
checks, the risk-amount computation per mode, the side-specific sizing and
profit targets, the 1,000,000-unit position-size ceiling, and the rounded
size, in source order. -/
def calculate_risk_reward (position_type : PositionType) (account_size : ℚ)
    (risk_mode : RiskMode) (risk_input : ℚ)
    (entry_price : ℚ) (stop_loss : ℚ) : Except CalcError RiskResult :=
  if account_size ≤ 0 then Except.error CalcError.invalidInput
  else if entry_price ≤ 0 then Except.error CalcError.invalidInput
  else if stop_loss ≤ 0 then Except.error CalcError.invalidInput
  else if entry_price = stop_loss then Except.error CalcError.invalidInput
  else
    (match risk_mode with
      | RiskMode.percentOfAccount =>
          if risk_input ≤ 0 ∨ 100 < risk_input then
            Except.error CalcError.invalidInput
          else
            Except.ok (account_size * (risk_input / 100))
      | RiskMode.fixedAmount =>
          if risk_input ≤ 0 then Except.error CalcError.invalidInput
          else if account_size < risk_input then
            Except.error CalcError.invalidInput
          else
            Except.ok risk_input).bind fun risk_amount =>
    (match position_type with
      | PositionType.long =>
          if entry_price ≤ stop_loss then Except.error CalcError.invalidInput
          else
            Except.ok (risk_amount / (entry_price - stop_loss),
              risk_amount / (entry_price - stop_loss) *
                (entry_price - stop_loss),
              entry_price + (entry_price - stop_loss),
              entry_price + 2 * (entry_price - stop_loss))
      | PositionType.short =>
          if stop_loss ≤ entry_price then Except.error CalcError.invalidInput
          else
            Except.ok (risk_amount / (stop_loss - entry_price),
              risk_amount / (stop_loss - entry_price) *
                (stop_loss - entry_price),
              entry_price - (stop_loss - entry_price),
              entry_price - 2 * (stop_loss - entry_price))).bind fun sc =>
    if 1000000 < sc.1 then Except.error CalcError.degenerateSetup
    else
      Except.ok { position_size := sc.1,
                  position_size_rounded := pyint sc.1,
                  risk_amount := risk_amount,
                  profit_1_1 := sc.2.2.1,
                  profit_2_1 := sc.2.2.2,
                  stop_loss_amount := sc.2.1 }

/-- Embedding of `calculate_percentage_moves` from `rizzk_core.py`.  The
divisions by `entry_price` are unguarded in the source; in `ℚ` division by
zero is total (yielding `0`), so theorems about this function carry the
inherited precondition `entry_price ≠ 0` explicitly. -/
def calculate_percentage_moves (entry_price : ℚ) (stop_loss : ℚ)
    (profit_1_1 : ℚ) (position_type : PositionType) : ℚ × ℚ :=
  match position_type with
  | PositionType.long =>
      (((entry_price - stop_loss) / entry_price) * 100,
       ((profit_1_1 - entry_price) / entry_price) * 100)
  | PositionType.short =>
      (((stop_loss - entry_price) / entry_price) * 100,
       ((entry_price - profit_1_1) / entry_price) * 100)

/-- Embedding of `calculate_risk_reward_ratio` from `rizzk_core.py`:
side-dependent `risk` and `reward`, then `reward / risk if risk != 0 else 0`. -/
def calculate_risk_reward_ratio (entry_price : ℚ) (stop_loss : ℚ)
    (profit_target : ℚ) (position_type : PositionType) : ℚ :=
  let rr : ℚ × ℚ :=
    match position_type with
    | PositionType.long =>
        (entry_price - stop_loss, profit_target - entry_price)
    | PositionType.short =>
        (stop_loss - entry_price, entry_price - profit_target)
  if rr.1 ≠ 0 then rr.2 / rr.1 else 0

/-- The risk amount the spec prescribes for each mode:
`account_size * value / 100` for percent-of-account, `value` for a fixed
amount. -/
def risk_amount_spec (account_size : ℚ) (risk_mode : RiskMode)
    (risk_input : ℚ) : ℚ :=
  match risk_mode with
  | RiskMode.percentOfAccount => account_size * (risk_input / 100)
  | RiskMode.fixedAmount => risk_input

/-- The per-unit risk (signed stop distance, positive for a correctly
ordered setup). -/
def per_unit_risk (position_type : PositionType) (entry_price : ℚ)
    (stop_loss : ℚ) : ℚ :=
  match position_type with
  | PositionType.long => entry_price - stop_loss
  | PositionType.short => stop_loss - entry_price

/-- Conjunction of all `InvalidInput` preconditions of
`calculate_risk_reward`, exactly as checked by the source. -/
def validSetup (position_type : PositionType) (account_size : ℚ)
    (risk_mode : RiskMode) (risk_input : ℚ)
    (entry_price : ℚ) (stop_loss : ℚ) : Prop :=
  0 < account_size ∧ 0 < entry_price ∧ 0 < stop_loss ∧
  entry_price ≠ stop_loss ∧
  (match risk_mode with
    | RiskMode.percentOfAccount => 0 < risk_input ∧ risk_input ≤ 100
    | RiskMode.fixedAmount => 0 < risk_input ∧ risk_input ≤ account_size) ∧
  (match position_type with
    | PositionType.long => stop_loss < entry_price
    | PositionType.short => entry_price < stop_loss)

instance validSetup.decidable (position_type : PositionType)
    (account_size : ℚ) (risk_mode : RiskMode) (risk_input : ℚ)
    (entry_price : ℚ) (stop_loss : ℚ) :
    Decidable (validSetup position_type account_size risk_mode risk_input
      entry_price stop_loss) := by
  unfold validSetup
  cases risk_mode <;> cases position_type <;> infer_instance

/-- The record that `calculate_risk_reward` assembles on the success path,
written out field by field (used only to state the characterization
lemmas below; it is derived from the source, not a trusted spec). -/
def expected_result (position_type : PositionType) (account_size : ℚ)
    (risk_mode : RiskMode) (risk_input : ℚ)
    (entry_price : ℚ) (stop_loss : ℚ) : RiskResult :=
  { position_size := risk_amount_spec account_size risk_mode risk_input /
      per_unit_risk position_type entry_price stop_loss,
    position_size_rounded := pyint (risk_amount_spec account_size risk_mode
      risk_input / per_unit_risk position_type entry_price stop_loss),
    risk_amount := risk_amount_spec account_size risk_mode risk_input,
    profit_1_1 := match position_type with
      | PositionType.long => entry_price + (entry_price - stop_loss)
      | PositionType.short => entry_price - (stop_loss - entry_price),
    profit_2_1 := match position_type with
      | PositionType.long => entry_price + 2 * (entry_price - stop_loss)
      | PositionType.short => entry_price - 2 * (stop_loss - entry_price),
    stop_loss_amount := risk_amount_spec account_size risk_mode risk_input /
      per_unit_risk position_type entry_price stop_loss *
      per_unit_risk position_type entry_price stop_loss }

/-- Modelled from the spec: the `RiskMultipleTarget` record of §3 —
`{R, target_price, move_amount, realized_ratio, estimated_pnl}` — since the
operation `targetsAtMultiples` has no implementation under `src/`. -/
structure RiskMultipleTarget where
  R : ℚ
  target_price : ℚ
  move_amount : ℚ
  realized_ratio : ℚ
  estimated_pnl : ℚ
deriving DecidableEq, Repr

/-- Modelled from the spec: `sign(Long) = +1, sign(Short) = -1`. -/
def sign_of (position_type : PositionType) : ℚ :=
  match position_type with
  | PositionType.long => 1
  | PositionType.short => -1

/-- Modelled from the spec: the record built for one valid R in
`targetsAtMultiples`: `target_price = entry_price + sign(side)*R*per_unit_risk`;
`move_amount = target_price - entry_price`;
`estimated_pnl = max(0, position_size_rounded*(sign(side)*move_amount - friction))`;
`realized_ratio = |move_amount| / per_unit_risk`. -/
def mkRiskMultipleTarget (position_type : PositionType) (entry_price : ℚ)
    (per_unit : ℚ) (friction : ℚ) (position_size_rounded : ℤ)
    (R : ℚ) : RiskMultipleTarget :=
  { R := R,
    target_price := entry_price + sign_of position_type * R * per_unit,
    move_amount := entry_price + sign_of position_type * R * per_unit -
      entry_price,
    realized_ratio := |entry_price + sign_of position_type * R * per_unit -
      entry_price| / per_unit,
    estimated_pnl := max 0 ((position_size_rounded : ℚ) *
      (sign_of position_type * (entry_price + sign_of position_type * R *
        per_unit - entry_price) - friction)) }

/-- Modelled from the spec: an entry of `R_list` is either a parsable
number (`some q`) or an unparsable token (`none`); an entry is kept exactly
when it parses to a positive value. -/
def parseRToken (tok : Option ℚ) : Option ℚ :=
  match tok with
  | none => none
  | some q => if 0 < q then some q else none

/-- Modelled from the spec: `targetsAtMultiples(setup, R_list)` walks the
ordered `R_list`, silently drops non-positive or unparsable entries, and
emits one `RiskMultipleTarget` per remaining valid R, in input order. -/
def targetsAtMultiples (position_type : PositionType) (entry_price : ℚ)
    (per_unit : ℚ) (friction : ℚ) (position_size_rounded : ℤ)
    (R_list : List (Option ℚ)) : List RiskMultipleTarget :=
  match R_list with
  | [] => []
  | tok :: rest =>
      match parseRToken tok with
      | none => targetsAtMultiples position_type entry_price per_unit
          friction position_size_rounded rest
      | some R => mkRiskMultipleTarget position_type entry_price per_unit
          friction position_size_rounded R ::
        targetsAtMultiples position_type entry_price per_unit friction
          position_size_rounded rest

theorem compute_of_valid (position_type : PositionType) (account_size : ℚ)
    (risk_mode : RiskMode) (risk_input : ℚ)
    (entry_price : ℚ) (stop_loss : ℚ)
    (h : validSetup position_type account_size risk_mode risk_input
      entry_price stop_loss) :
    calculate_risk_reward position_type account_size risk_mode risk_input
        entry_price stop_loss =
      (if 1000000 < risk_amount_spec account_size risk_mode risk_input /
          per_unit_risk position_type entry_price stop_loss then
        Except.error CalcError.degenerateSetup
      else
        Except.ok (expected_result position_type account_size risk_mode
          risk_input entry_price stop_loss)) := by
  obtain ⟨ha, he, hs, hne, hm, hty⟩ := h
  cases position_type <;> cases risk_mode <;>
    obtain ⟨hv0, hv1⟩ := hm <;>
    simp only [calculate_risk_reward, expected_result, risk_amount_spec,
      per_unit_risk, if_neg ha.not_le, if_neg he.not_le, if_neg hs.not_le,
      if_neg hne, if_neg (not_or.mpr ⟨hv0.not_le, hv1.not_lt⟩),
      if_neg hv0.not_le, if_neg hv1.not_lt, if_neg hty.not_le,
      Except.bind]

theorem compute_of_invalid (position_type : PositionType) (account_size : ℚ)
    (risk_mode : RiskMode) (risk_input : ℚ)
    (entry_price : ℚ) (stop_loss : ℚ)
    (h : ¬ validSetup position_type account_size risk_mode risk_input
      entry_price stop_loss) :
    calculate_risk_reward position_type account_size risk_mode risk_input
        entry_price stop_loss = Except.error CalcError.invalidInput := by
  unfold calculate_risk_reward
  by_cases ha : account_size ≤ 0
  · rw [if_pos ha]
  rw [if_neg ha]
  by_cases he : entry_price ≤ 0
  · rw [if_pos he]
  rw [if_neg he]
  by_cases hs : stop_loss ≤ 0
  · rw [if_pos hs]
  rw [if_neg hs]
  by_cases hne : entry_price = stop_loss
  · rw [if_pos hne]
  rw [if_neg hne]
  push_neg at ha he hs
  cases risk_mode <;> cases position_type
  next =>
    by_cases hv : risk_input ≤ 0 ∨ 100 < risk_input
    · simp only [if_pos hv, Except.bind]
    push_neg at hv
    simp only [if_neg (not_or.mpr ⟨hv.1.not_le, hv.2.not_lt⟩), Except.bind]
    by_cases hty : entry_price ≤ stop_loss
    · simp only [if_pos hty]
    push_neg at hty
    exact absurd ⟨ha, he, hs, hne, ⟨hv.1, hv.2⟩, hty⟩ h
  next =>
    by_cases hv : risk_input ≤ 0 ∨ 100 < risk_input
    · simp only [if_pos hv, Except.bind]
    push_neg at hv
    simp only [if_neg (not_or.mpr ⟨hv.1.not_le, hv.2.not_lt⟩), Except.bind]
    by_cases hty : stop_loss ≤ entry_price
    · simp only [if_pos hty]
    push_neg at hty
    exact absurd ⟨ha, he, hs, hne, ⟨hv.1, hv.2⟩, hty⟩ h
  next =>
    by_cases hv0 : risk_input ≤ 0
    · simp only [if_pos hv0, Except.bind]
    rw [if_neg hv0]
    by_cases hv1 : account_size < risk_input
    · simp only [if_pos hv1, Except.bind]
    push_neg at hv0 hv1
    simp only [if_neg (by push_neg; exact hv1 : ¬ account_size < risk_input),
      Except.bind]
    by_cases hty : entry_price ≤ stop_loss
    · simp only [if_pos hty]
    push_neg at hty
    exact absurd ⟨ha, he, hs, hne, ⟨hv0, hv1⟩, hty⟩ h
  next =>
    by_cases hv0 : risk_input ≤ 0
    · simp only [if_pos hv0, Except.bind]
    rw [if_neg hv0]
    by_cases hv1 : account_size < risk_input
    · simp only [if_pos hv1, Except.bind]
    push_neg at hv0 hv1
    simp only [if_neg (by push_neg; exact hv1 : ¬ account_size < risk_input),
      Except.bind]
    by_cases hty : stop_loss ≤ entry_price
    · simp only [if_pos hty]
    push_neg at hty
    exact absurd ⟨ha, he, hs, hne, ⟨hv0, hv1⟩, hty⟩ h

theorem risk_amount_spec_pos (account_size : ℚ) (risk_mode : RiskMode)
    (risk_input : ℚ)
    (ha : 0 < account_size) (h0 : 0 < risk_input) :
    0 < risk_amount_spec account_size risk_mode risk_input := by
  cases risk_mode
  · exact mul_pos ha (by positivity)
  · exact h0

theorem per_unit_risk_pos (position_type : PositionType) (entry_price : ℚ)
    (stop_loss : ℚ)
    (h : match position_type with
      | PositionType.long => stop_loss < entry_price
      | PositionType.short => entry_price < stop_loss) :
    0 < per_unit_risk position_type entry_price stop_loss := by
  cases position_type <;> simpa [per_unit_risk] using h

theorem valid_risk_pos (position_type : PositionType) (account_size : ℚ)
    (risk_mode : RiskMode) (risk_input : ℚ)
    (entry_price : ℚ) (stop_loss : ℚ)
    (h : validSetup position_type account_size risk_mode risk_input
      entry_price stop_loss) :
    0 < risk_amount_spec account_size risk_mode risk_input ∧
    0 < per_unit_risk position_type entry_price stop_loss := by
  obtain ⟨ha, _, _, _, hm, hty⟩ := h
  refine ⟨risk_amount_spec_pos account_size risk_mode risk_input ha ?_,
    per_unit_risk_pos position_type entry_price stop_loss hty⟩
  cases risk_mode <;> exact hm.1

theorem ok_iff (position_type : PositionType) (account_size : ℚ)
    (risk_mode : RiskMode) (risk_input : ℚ)
    (entry_price : ℚ) (stop_loss : ℚ) (r : RiskResult) :
    calculate_risk_reward position_type account_size risk_mode risk_input
        entry_price stop_loss = Except.ok r ↔
      validSetup position_type account_size risk_mode risk_input
        entry_price stop_loss ∧
      risk_amount_spec account_size risk_mode risk_input /
        per_unit_risk position_type entry_price stop_loss ≤ 1000000 ∧
      r = expected_result position_type account_size risk_mode risk_input
        entry_price stop_loss := by
  constructor
  · intro h
    by_cases hv : validSetup position_type account_size risk_mode risk_input
      entry_price stop_loss
    · rw [compute_of_valid position_type account_size risk_mode risk_input
        entry_price stop_loss hv] at h
      by_cases hd : 1000000 < risk_amount_spec account_size risk_mode
        risk_input / per_unit_risk position_type entry_price stop_loss
      · rw [if_pos hd] at h
        exact absurd h (by simp)
      · rw [if_neg hd] at h
        exact ⟨hv, not_lt.mp hd, (Except.ok.injEq _ _ ▸ h).symm⟩
    · rw [compute_of_invalid position_type account_size risk_mode risk_input
        entry_price stop_loss hv] at h
      exact absurd h (by simp)
  · rintro ⟨hv, hd, rfl⟩
    rw [compute_of_valid position_type account_size risk_mode risk_input
      entry_price stop_loss hv, if_neg (not_lt.mpr hd)]

theorem error_invalid_iff (position_type : PositionType) (account_size : ℚ)
    (risk_mode : RiskMode) (risk_input : ℚ)
    (entry_price : ℚ) (stop_loss : ℚ) :
    calculate_risk_reward position_type account_size risk_mode risk_input
        entry_price stop_loss = Except.error CalcError.invalidInput ↔
      ¬ validSetup position_type account_size risk_mode risk_input
        entry_price stop_loss := by
  constructor
  · intro h hv
    rw [compute_of_valid position_type account_size risk_mode risk_input
      entry_price stop_loss hv] at h
    by_cases hd : 1000000 < risk_amount_spec account_size risk_mode
      risk_input / per_unit_risk position_type entry_price stop_loss
    · rw [if_pos hd] at h
      exact absurd h (by simp)
    · rw [if_neg hd] at h
      exact absurd h (by simp)
  · exact compute_of_invalid position_type account_size risk_mode risk_input
      entry_price stop_loss

/-- Claim C1: whenever `calculate_risk_reward` succeeds on a Long setup it
returns `position_size = risk_amount / (entry - stop)`,
`profit_at_1R = entry + (entry - stop)` and
`profit_at_2R = entry + 2*(entry - stop)`; on a Short setup,
`position_size = risk_amount / (stop - entry)`,
`profit_at_1R = entry - (stop - entry)` and
`profit_at_2R = entry - 2*(stop - entry)`; in both cases the returned
`risk_amount` is `account_size * value / 100` in percent mode and `value`
in fixed mode (`risk_amount_spec`). -/
theorem claim_C1 (account_size : ℚ) (risk_mode : RiskMode) (risk_input : ℚ)
    (entry_price : ℚ) (stop_loss : ℚ) (r : RiskResult) :
    (calculate_risk_reward PositionType.long account_size risk_mode
        risk_input entry_price stop_loss = Except.ok r →
      r.risk_amount = risk_amount_spec account_size risk_mode risk_input ∧
      r.position_size = r.risk_amount / (entry_price - stop_loss) ∧
      r.profit_1_1 = entry_price + (entry_price - stop_loss) ∧
      r.profit_2_1 = entry_price + 2 * (entry_price - stop_loss)) ∧
    (calculate_risk_reward PositionType.short account_size risk_mode
        risk_input entry_price stop_loss = Except.ok r →
      r.risk_amount = risk_amount_spec account_size risk_mode risk_input ∧
      r.position_size = r.risk_amount / (stop_loss - entry_price) ∧
      r.profit_1_1 = entry_price - (stop_loss - entry_price) ∧
      r.profit_2_1 = entry_price - 2 * (stop_loss - entry_price)) := by
  constructor <;> intro h <;>
  · obtain ⟨hv, hd, rfl⟩ := (ok_iff _ _ _ _ _ _ _).mp h
    simp [expected_result, per_unit_risk]

/-- Witness for C1 at concrete scenario (from the spec) 1:
`compute(Long, 10000, Percent, 1, 100, 95)` succeeds and the returned
fields satisfy the formulas. -/
theorem claim_C1_witness :
    (calculate_risk_reward PositionType.long 10000 RiskMode.percentOfAccount
        1 100 95 = Except.ok ⟨20, 20, 100, 105, 110, 100⟩) ∧
    ((100 : ℚ) = risk_amount_spec 10000 RiskMode.percentOfAccount 1 ∧
      (20 : ℚ) = 100 / (100 - 95) ∧
      (105 : ℚ) = 100 + (100 - 95) ∧
      (110 : ℚ) = 100 + 2 * (100 - 95)) := by
  have h : calculate_risk_reward PositionType.long 10000
      RiskMode.percentOfAccount 1 100 95 =
      Except.ok ⟨20, 20, 100, 105, 110, 100⟩ := by
    simp only [calculate_risk_reward]
    norm_num [Except.bind, pyint]
  exact ⟨h, (claim_C1 10000 RiskMode.percentOfAccount 1 100 95 _).1 h⟩

/-- Claim C2: `calculate_risk_reward` fails with `InvalidInput` exactly
when one of its preconditions (`validSetup`) is violated; a percent value
of exactly 100 is accepted with `risk_amount = account_size`, and any
percent value above 100 is rejected with `InvalidInput`. -/
theorem claim_C2 (position_type : PositionType) (account_size : ℚ)
    (risk_mode : RiskMode) (risk_input : ℚ)
    (entry_price : ℚ) (stop_loss : ℚ) :
    (calculate_risk_reward position_type account_size risk_mode risk_input
        entry_price stop_loss = Except.error CalcError.invalidInput ↔
      ¬ validSetup position_type account_size risk_mode risk_input
        entry_price stop_loss) ∧
    (∀ r, calculate_risk_reward position_type account_size
        RiskMode.percentOfAccount 100 entry_price stop_loss = Except.ok r →
      r.risk_amount = account_size) ∧
    (100 < risk_input → calculate_risk_reward position_type account_size
        RiskMode.percentOfAccount risk_input entry_price stop_loss =
      Except.error CalcError.invalidInput) := by
  refine ⟨error_invalid_iff _ _ _ _ _ _, ?_, ?_⟩
  · intro r h
    obtain ⟨hv, hd, rfl⟩ := (ok_iff _ _ _ _ _ _ _).mp h
    norm_num [expected_result, risk_amount_spec]
  · intro hgt
    refine compute_of_invalid _ _ _ _ _ _ ?_
    rintro ⟨_, _, _, _, hm, _⟩
    exact absurd hm.2 hgt.not_le

/-- Witness for C2: a percent value of 101 (just above 100) is rejected
with `InvalidInput`. -/
theorem claim_C2_witness :
    (100 : ℚ) < 101 ∧
    calculate_risk_reward PositionType.long 10000 RiskMode.percentOfAccount
      101 100 95 = Except.error CalcError.invalidInput :=
  ⟨by norm_num, (claim_C2 PositionType.long 10000 RiskMode.percentOfAccount
    101 100 95).2.2 (by norm_num)⟩

/-- Claim C3: on inputs satisfying every `InvalidInput` precondition,
`calculate_risk_reward` fails with `DegenerateSetup` exactly when
`risk_amount / |entry - stop|` exceeds 1,000,000, and succeeds whenever
that position size is at most 1,000,000 (in particular at exactly
1,000,000). -/
theorem claim_C3 (position_type : PositionType) (account_size : ℚ)
    (risk_mode : RiskMode) (risk_input : ℚ)
    (entry_price : ℚ) (stop_loss : ℚ)
    (h : validSetup position_type account_size risk_mode risk_input
      entry_price stop_loss) :
    (calculate_risk_reward position_type account_size risk_mode risk_input
        entry_price stop_loss = Except.error CalcError.degenerateSetup ↔
      1000000 < risk_amount_spec account_size risk_mode risk_input /
        |entry_price - stop_loss|) ∧
    (risk_amount_spec account_size risk_mode risk_input /
        |entry_price - stop_loss| ≤ 1000000 →
      ∃ r, calculate_risk_reward position_type account_size risk_mode
        risk_input entry_price stop_loss = Except.ok r) := by
  have habs : |entry_price - stop_loss| =
      per_unit_risk position_type entry_price stop_loss := by
    obtain ⟨_, _, _, _, _, hty⟩ := h
    cases position_type
    · simpa [per_unit_risk] using abs_of_pos (sub_pos.mpr hty)
    · rw [per_unit_risk, abs_of_neg (sub_neg.mpr hty), neg_sub]
  rw [compute_of_valid position_type account_size risk_mode risk_input
    entry_price stop_loss h, habs]
  by_cases hd : 1000000 < risk_amount_spec account_size risk_mode
    risk_input / per_unit_risk position_type entry_price stop_loss
  · rw [if_pos hd]
    exact ⟨by simp [hd], fun hle => absurd hd hle.not_lt⟩
  · rw [if_neg hd]
    exact ⟨by simp [hd], fun _ => ⟨_, rfl⟩⟩

/-- Witness for C3: the fixed-amount setup (account 10,000,000, risk
1,000,000, entry 100, stop 99) has position size exactly 1,000,000 and
succeeds. -/
theorem claim_C3_witness :
    validSetup PositionType.long 10000000 RiskMode.fixedAmount 1000000
      100 99 ∧
    (risk_amount_spec 10000000 RiskMode.fixedAmount 1000000 /
      |(100 : ℚ) - 99| ≤ 1000000) ∧
    (∃ r, calculate_risk_reward PositionType.long 10000000
      RiskMode.fixedAmount 1000000 100 99 = Except.ok r) := by
  have hv : validSetup PositionType.long 10000000 RiskMode.fixedAmount
      1000000 100 99 := by
    norm_num [validSetup]
  have hle : risk_amount_spec 10000000 RiskMode.fixedAmount 1000000 /
      |(100 : ℚ) - 99| ≤ 1000000 := by
    norm_num [risk_amount_spec]
  exact ⟨hv, hle, (claim_C3 PositionType.long 10000000 RiskMode.fixedAmount
    1000000 100 99 hv).2 hle⟩

/-- Claim C4: whenever `calculate_risk_reward` succeeds, the returned
rounded position size equals `⌊position_size⌋`, hence
`position_size_rounded ≤ position_size < position_size_rounded + 1`
(the rounding never rounds up). -/
theorem claim_C4 (position_type : PositionType) (account_size : ℚ)
    (risk_mode : RiskMode) (risk_input : ℚ)
    (entry_price : ℚ) (stop_loss : ℚ) (r : RiskResult)
    (h : calculate_risk_reward position_type account_size risk_mode
      risk_input entry_price stop_loss = Except.ok r) :
    r.position_size_rounded = ⌊r.position_size⌋ ∧
    (r.position_size_rounded : ℚ) ≤ r.position_size ∧
    r.position_size < (r.position_size_rounded : ℚ) + 1 := by
  obtain ⟨hv, hd, rfl⟩ := (ok_iff _ _ _ _ _ _ _).mp h
  obtain ⟨hra, hpu⟩ := valid_risk_pos _ _ _ _ _ _ hv
  have hps : (0 : ℚ) ≤ risk_amount_spec account_size risk_mode risk_input /
      per_unit_risk position_type entry_price stop_loss :=
    (div_pos hra hpu).le
  have hpy : pyint (risk_amount_spec account_size risk_mode risk_input /
      per_unit_risk position_type entry_price stop_loss) =
      ⌊risk_amount_spec account_size risk_mode risk_input /
        per_unit_risk position_type entry_price stop_loss⌋ := by
    unfold pyint
    exact if_pos hps
  simp only [expected_result, hpy]
  exact ⟨trivial, Int.floor_le _, Int.lt_floor_add_one _⟩

/-- Witness for C4: a fractional position size (100/3) is rounded down
to 33. -/
theorem claim_C4_witness :
    (calculate_risk_reward PositionType.long 10000 RiskMode.fixedAmount
      100 100 97 = Except.ok ⟨100/3, 33, 100, 103, 106, 100⟩) ∧
    ((33 : ℤ) = ⌊(100/3 : ℚ)⌋ ∧ ((33 : ℤ) : ℚ) ≤ 100/3 ∧
      (100/3 : ℚ) < ((33 : ℤ) : ℚ) + 1) := by
  have hfl : ⌊(100/3 : ℚ)⌋ = 33 := by
    rw [Int.floor_eq_iff]
    norm_num
  have h : calculate_risk_reward PositionType.long 10000
      RiskMode.fixedAmount 100 100 97 =
      Except.ok ⟨100/3, 33, 100, 103, 106, 100⟩ := by
    simp only [calculate_risk_reward]
    norm_num [Except.bind, pyint, hfl]
  exact ⟨h, claim_C4 PositionType.long 10000 RiskMode.fixedAmount
    100 100 97 _ h⟩

/-- Claim C9: whenever `calculate_risk_reward` succeeds, the returned
`stop_loss_amount` equals the returned `risk_amount` exactly (in exact
arithmetic, `(risk_amount / d) * d = risk_amount`). -/
theorem claim_C9 (position_type : PositionType) (account_size : ℚ)
    (risk_mode : RiskMode) (risk_input : ℚ)
    (entry_price : ℚ) (stop_loss : ℚ) (r : RiskResult)
    (h : calculate_risk_reward position_type account_size risk_mode
      risk_input entry_price stop_loss = Except.ok r) :
    r.stop_loss_amount = r.risk_amount := by
  obtain ⟨hv, hd, rfl⟩ := (ok_iff _ _ _ _ _ _ _).mp h
  obtain ⟨hra, hpu⟩ := valid_risk_pos _ _ _ _ _ _ hv
  simp only [expected_result]
  exact div_mul_cancel₀ _ hpu.ne'

/-- Witness for C9 at concrete scenario (from the spec) 3:
`compute(Short, 12500, Fixed, 250, 100, 105)` returns
`stop_loss_dollar_amount = risk_amount = 250`. -/
theorem claim_C9_witness :
    (calculate_risk_reward PositionType.short 12500 RiskMode.fixedAmount
      250 100 105 = Except.ok ⟨50, 50, 250, 95, 90, 250⟩) ∧
    (250 : ℚ) = 250 := by
  have h : calculate_risk_reward PositionType.short 12500
      RiskMode.fixedAmount 250 100 105 =
      Except.ok ⟨50, 50, 250, 95, 90, 250⟩ := by
    simp only [calculate_risk_reward]
    norm_num [Except.bind, pyint]
  exact ⟨h, claim_C9 PositionType.short 12500 RiskMode.fixedAmount
    250 100 105 _ h⟩

/-- Claim C10: whenever `calculate_risk_reward` succeeds, feeding its
1R and 2R profit targets back into `calculate_risk_reward_ratio` yields
exactly 1 and 2 respectively, for both sides. -/
theorem claim_C10 (position_type : PositionType) (account_size : ℚ)
    (risk_mode : RiskMode) (risk_input : ℚ)
    (entry_price : ℚ) (stop_loss : ℚ) (r : RiskResult)
    (h : calculate_risk_reward position_type account_size risk_mode
      risk_input entry_price stop_loss = Except.ok r) :
    calculate_risk_reward_ratio entry_price stop_loss r.profit_1_1
      position_type = 1 ∧
    calculate_risk_reward_ratio entry_price stop_loss r.profit_2_1
      position_type = 2 := by
  obtain ⟨hv, hd, rfl⟩ := (ok_iff _ _ _ _ _ _ _).mp h
  obtain ⟨ha, he, hs, hne, hm, hty⟩ := hv
  cases position_type
  · have hrisk : entry_price - stop_loss ≠ 0 := (sub_pos.mpr hty).ne'
    simp only [calculate_risk_reward_ratio, expected_result]
    rw [if_pos hrisk, if_pos hrisk]
    constructor <;> · rw [div_eq_iff hrisk]; ring
  · have hrisk : stop_loss - entry_price ≠ 0 := (sub_pos.mpr hty).ne'
    simp only [calculate_risk_reward_ratio, expected_result]
    rw [if_pos hrisk, if_pos hrisk]
    constructor <;> · rw [div_eq_iff hrisk]; ring

/-- Witness for C10 at concrete scenario (from the spec) 1: the 1R target 105
and 2R target 110 of the Long 100/95 setup give ratios 1 and 2. -/
theorem claim_C10_witness :
    (calculate_risk_reward PositionType.long 10000 RiskMode.percentOfAccount
      1 100 95 = Except.ok ⟨20, 20, 100, 105, 110, 100⟩) ∧
    calculate_risk_reward_ratio 100 95 105 PositionType.long = 1 ∧
    calculate_risk_reward_ratio 100 95 110 PositionType.long = 2 := by
  have h : calculate_risk_reward PositionType.long 10000
      RiskMode.percentOfAccount 1 100 95 =
      Except.ok ⟨20, 20, 100, 105, 110, 100⟩ := by
    simp only [calculate_risk_reward]
    norm_num [Except.bind, pyint]
  have hc := claim_C10 PositionType.long 10000 RiskMode.percentOfAccount
    1 100 95 _ h
  exact ⟨h, hc.1, hc.2⟩

/-- Claim C5: `calculate_risk_reward_ratio` is total (it is a Lean
function, never failing): it returns 0 whenever the direction-aware risk
is zero (`entry = stop`), otherwise `reward/risk` with the side-dependent
risk and reward, and the result can be negative when the target lies on
the losing side of entry. -/
theorem claim_C5 (entry_price : ℚ) (stop_loss : ℚ) (profit_target : ℚ) :
    (∀ position_type, entry_price = stop_loss →
      calculate_risk_reward_ratio entry_price stop_loss profit_target
        position_type = 0) ∧
    (entry_price ≠ stop_loss →
      calculate_risk_reward_ratio entry_price stop_loss profit_target
        PositionType.long =
        (profit_target - entry_price) / (entry_price - stop_loss)) ∧
    (entry_price ≠ stop_loss →
      calculate_risk_reward_ratio entry_price stop_loss profit_target
        PositionType.short =
        (entry_price - profit_target) / (stop_loss - entry_price)) ∧
    calculate_risk_reward_ratio 100 95 (195/2) PositionType.long < 0 := by
  refine ⟨?_, ?_, ?_, ?_⟩
  · intro ty he
    subst he
    cases ty <;> simp [calculate_risk_reward_ratio]
  · intro hne
    simp only [calculate_risk_reward_ratio]
    rw [if_pos (sub_ne_zero.mpr hne)]
  · intro hne
    simp only [calculate_risk_reward_ratio]
    rw [if_pos (sub_ne_zero.mpr (Ne.symm hne))]
  · norm_num [calculate_risk_reward_ratio]

/-- Witness for C5: a degenerate setup (entry = stop = 5) yields ratio 0,
and a regular Long setup yields the `reward/risk` formula. -/
theorem claim_C5_witness :
    ((5 : ℚ) = 5 ∧
      calculate_risk_reward_ratio 5 5 7 PositionType.long = 0) ∧
    ((100 : ℚ) ≠ 95 ∧
      calculate_risk_reward_ratio 100 95 105 PositionType.long =
        (105 - 100) / (100 - 95)) :=
  ⟨⟨rfl, (claim_C5 5 5 7).1 PositionType.long rfl⟩,
   ⟨by norm_num, (claim_C5 100 95 105).2.1 (by norm_num)⟩⟩

/-- Claim C6: `calculate_percentage_moves` performs no validation of its
own; under the inherited precondition `entry_price ≠ 0` it returns the
side-dependent percentage formulas, and when `profit_1_1` is the 1R target
of a successful `calculate_risk_reward` call, both returned percentages
are strictly positive. -/
theorem claim_C6 (entry_price : ℚ) (stop_loss : ℚ) (profit_1_1 : ℚ) :
    (entry_price ≠ 0 →
      calculate_percentage_moves entry_price stop_loss profit_1_1
        PositionType.long =
        ((entry_price - stop_loss) / entry_price * 100,
         (profit_1_1 - entry_price) / entry_price * 100)) ∧
    (entry_price ≠ 0 →
      calculate_percentage_moves entry_price stop_loss profit_1_1
        PositionType.short =
        ((stop_loss - entry_price) / entry_price * 100,
         (entry_price - profit_1_1) / entry_price * 100)) ∧
    (∀ position_type account_size risk_mode risk_input (r : RiskResult),
      calculate_risk_reward position_type account_size risk_mode risk_input
        entry_price stop_loss = Except.ok r →
      0 < (calculate_percentage_moves entry_price stop_loss r.profit_1_1
        position_type).1 ∧
      0 < (calculate_percentage_moves entry_price stop_loss r.profit_1_1
        position_type).2) := by
  refine ⟨fun _ => rfl, fun _ => rfl, ?_⟩
  intro ty a m v r h
  obtain ⟨hv, hd, rfl⟩ := (ok_iff _ _ _ _ _ _ _).mp h
  obtain ⟨ha, he, hs, hne, hm, hty⟩ := hv
  cases ty
  · have h1 : 0 < (entry_price - stop_loss) / entry_price :=
      div_pos (sub_pos.mpr hty) he
    constructor
    · exact mul_pos h1 (by norm_num)
    · simp only [calculate_percentage_moves, expected_result]
      have hsimp : entry_price + (entry_price - stop_loss) - entry_price =
          entry_price - stop_loss := by ring
      rw [hsimp]
      exact mul_pos h1 (by norm_num)
  · have h1 : 0 < (stop_loss - entry_price) / entry_price :=
      div_pos (sub_pos.mpr hty) he
    constructor
    · exact mul_pos h1 (by norm_num)
    · simp only [calculate_percentage_moves, expected_result]
      have hsimp : entry_price - (entry_price - (stop_loss - entry_price)) =
          stop_loss - entry_price := by ring
      rw [hsimp]
      exact mul_pos h1 (by norm_num)

/-- Witness for C6: at entry 100 (nonzero) the Long formulas hold, and for
the successful Long 100/95 setup both percentage moves are positive. -/
theorem claim_C6_witness :
    ((100 : ℚ) ≠ 0 ∧
      calculate_percentage_moves 100 95 105 PositionType.long =
        ((100 - 95) / 100 * 100, (105 - 100) / 100 * 100)) ∧
    (calculate_risk_reward PositionType.long 10000 RiskMode.percentOfAccount
        1 100 95 = Except.ok ⟨20, 20, 100, 105, 110, 100⟩ ∧
      0 < (calculate_percentage_moves 100 95 105 PositionType.long).1 ∧
      0 < (calculate_percentage_moves 100 95 105 PositionType.long).2) := by
  have h : calculate_risk_reward PositionType.long 10000
      RiskMode.percentOfAccount 1 100 95 =
      Except.ok ⟨20, 20, 100, 105, 110, 100⟩ := by
    simp only [calculate_risk_reward]
    norm_num [Except.bind, pyint]
  have hc := (claim_C6 100 95 105).2.2 PositionType.long 10000
    RiskMode.percentOfAccount 1 _ h
  exact ⟨⟨by norm_num, (claim_C6 100 95 105).1 (by norm_num)⟩,
    h, hc.1, hc.2⟩

/-- Claim C7: every successful `calculate_risk_reward` result has
strictly positive `position_size` and `risk_amount`, non-negative
`position_size_rounded` and `stop_loss_amount`, and the profit targets can
be negative (a concrete Short setup exhibits negative 1R and 2R targets). -/
theorem claim_C7 :
    (∀ position_type account_size risk_mode risk_input entry_price stop_loss
        (r : RiskResult),
      calculate_risk_reward position_type account_size risk_mode risk_input
        entry_price stop_loss = Except.ok r →
      0 < r.position_size ∧ 0 ≤ r.position_size_rounded ∧
      0 < r.risk_amount ∧ 0 ≤ r.stop_loss_amount) ∧
    (∃ r, calculate_risk_reward PositionType.short 100 RiskMode.fixedAmount
      10 1 3 = Except.ok r ∧ r.profit_1_1 < 0 ∧ r.profit_2_1 < 0) := by
  constructor
  · intro ty a m v e s r h
    obtain ⟨hv, hd, rfl⟩ := (ok_iff _ _ _ _ _ _ _).mp h
    obtain ⟨hra, hpu⟩ := valid_risk_pos _ _ _ _ _ _ hv
    have hps : (0 : ℚ) < risk_amount_spec a m v / per_unit_risk ty e s :=
      div_pos hra hpu
    have hpy : pyint (risk_amount_spec a m v / per_unit_risk ty e s) =
        ⌊risk_amount_spec a m v / per_unit_risk ty e s⌋ := by
      unfold pyint
      exact if_pos hps.le
    refine ⟨hps, ?_, hra, ?_⟩
    · simp only [expected_result, hpy]
      exact Int.floor_nonneg.mpr hps.le
    · simp only [expected_result]
      exact (mul_pos hps hpu).le
  · refine ⟨⟨5, 5, 10, -1, -3, 10⟩, ?_, by norm_num, by norm_num⟩
    simp only [calculate_risk_reward]
    norm_num [Except.bind, pyint]

/-- Witness for C7: the successful Long fixed-100 setup at 100/97 has
positive sizes and amounts. -/
theorem claim_C7_witness :
    (calculate_risk_reward PositionType.long 10000 RiskMode.fixedAmount
      100 100 97 = Except.ok ⟨100/3, 33, 100, 103, 106, 100⟩) ∧
    (0 < (100/3 : ℚ) ∧ 0 ≤ (33 : ℤ) ∧ 0 < (100 : ℚ) ∧ 0 ≤ (100 : ℚ)) := by
  have hfl : ⌊(100/3 : ℚ)⌋ = 33 := by
    rw [Int.floor_eq_iff]
    norm_num
  have h : calculate_risk_reward PositionType.long 10000
      RiskMode.fixedAmount 100 100 97 =
      Except.ok ⟨100/3, 33, 100, 103, 106, 100⟩ := by
    simp only [calculate_risk_reward]
    norm_num [Except.bind, pyint, hfl]
  exact ⟨h, claim_C7.1 PositionType.long 10000 RiskMode.fixedAmount
    100 100 97 _ h⟩

/-- Claim C8: `targetsAtMultiples` silently drops exactly the non-positive
or unparsable entries of `R_list` and returns one `RiskMultipleTarget` per
remaining valid R, in the original input order with duplicates kept: the
output is exactly the map of the target constructor over the
order-preserving filter of valid entries, and the R values of the output are
exactly the filtered input. -/
theorem claim_C8 (position_type : PositionType) (entry_price : ℚ)
    (per_unit : ℚ) (friction : ℚ) (position_size_rounded : ℤ)
    (R_list : List (Option ℚ)) :
    targetsAtMultiples position_type entry_price per_unit friction
        position_size_rounded R_list =
      (R_list.filterMap parseRToken).map
        (mkRiskMultipleTarget position_type entry_price per_unit friction
          position_size_rounded) ∧
    (targetsAtMultiples position_type entry_price per_unit friction
        position_size_rounded R_list).map (fun t => t.R) =
      R_list.filterMap parseRToken := by
  have hmain : ∀ l : List (Option ℚ),
      targetsAtMultiples position_type entry_price per_unit friction
          position_size_rounded l =
        (l.filterMap parseRToken).map
          (mkRiskMultipleTarget position_type entry_price per_unit friction
            position_size_rounded) := by
    intro l
    induction l with
    | nil => rfl
    | cons tok rest ih =>
      cases htok : parseRToken tok <;>
        simp [targetsAtMultiples, List.filterMap_cons, htok, ih]
  refine ⟨hmain R_list, ?_⟩
  rw [hmain R_list, List.map_map]
  have hid : ((fun t : RiskMultipleTarget => t.R) ∘
      mkRiskMultipleTarget position_type entry_price per_unit friction
        position_size_rounded) = id := by
    funext R
    rfl
  rw [hid, List.map_id]

end Rizzk
